import Mathlib

/-!
Shallow embedding of `automations/keyword_ranking_tracker/keyword_ranking_tracker.py`.

The script is a linear batch job: it merges a config file with environment
variables, loads keywords, queries the SerpApi endpoint once per keyword,
extracts the 1-based rank of the first organic result whose link contains the
target domain substring, and writes the collected records to a CSV file via
pandas.  Network responses, the environment, the config file and the clock are
modelled as explicit parameters; `requests.get` is represented by a
`String → ApiResponse` oracle mapping each keyword to the response received
for it.
-/

/-- One entry of the JSON `organic_results` list.  The only field the script
reads is `link` (`result.get('link', '')` / `result.get('link')`); `link` is
`none` when the key is absent from the JSON object. -/
structure OrganicResult where
  link : Option String
deriving DecidableEq

/-- The JSON `search_information` object; the script reads
`total_results` (`data.get('search_information', {}).get('total_results', None)`). -/
structure SearchInfo where
  total_results : Option Nat
deriving DecidableEq

/-- An HTTP response from the SerpApi endpoint as the script consumes it:
`resp.status_code` plus the two parts of the JSON body it reads. -/
structure ApiResponse where
  status_code : Nat
  organic_results : List OrganicResult
  search_information : Option SearchInfo
deriving DecidableEq

/-- The dict built at the end of `fetch_serp_data` (the Ranking Record). -/
structure RankingRecord where
  keyword : String
  rank : Option Nat
  url : Option String
  search_volume : Option Nat
  timestamp : String
deriving DecidableEq

/-- Python substring containment `sub in s` on strings. -/
def strContainsStr (s sub : String) : Bool :=
  decide (sub.toList <:+: s.toList)

/-- The loop `for idx, result in enumerate(results, 1)` of `fetch_serp_data`:
`idx` starts at 1, and the first result whose `link` (defaulted to `''`)
contains the target domain sets `rank = idx` and `matched_url = result.get('link')`,
then breaks.  Returns the final values of the `rank` and `matched_url`
variables, both initialised to `None`. -/
def scanResults (target_domain : String) : List OrganicResult → Nat → Option Nat × Option String
  | [], _ => (none, none)
  | r :: rs, idx =>
    if strContainsStr (r.link.getD "") target_domain then (some idx, r.link)
    else scanResults target_domain rs (idx + 1)

/-- The read `data.get('search_information', {}).get('total_results', None)`. -/
def searchVolumeOf (resp : ApiResponse) : Option Nat :=
  match resp.search_information with
  | none => none
  | some si => si.total_results

/-- The URL built on the first line of `fetch_serp_data`. -/
def requestUrl (keyword api_key : String) : String :=
  "https://serpapi.com/search.json?q=" ++ keyword ++ "&engine=google&api_key=" ++ api_key

/-- `fetch_serp_data(keyword, api_key, target_domain)` with the HTTP response
passed explicitly and `datetime.utcnow().isoformat()` passed as `now`.
Returns `None` on a non-200 status, otherwise the record dict. -/
def fetch_serp_data (keyword api_key target_domain : String) (resp : ApiResponse)
    (now : String) : Option RankingRecord :=
  if resp.status_code ≠ 200 then none
  else
    some { keyword := keyword
           rank := (scanResults target_domain resp.organic_results 1).1
           url := (scanResults target_domain resp.organic_results 1).2
           search_volume := searchVolumeOf resp
           timestamp := now }

/-- The `main` loop over keywords: `res = fetch_serp_data(...)`;
`if res: results.append(res)`.  A returned dict always has five keys, so it is
truthy exactly when `fetch_serp_data` did not return `None`; hence the loop is
a `filterMap`. -/
def collectRecords (api_key target_domain now : String) (respond : String → ApiResponse)
    (keywords : List String) : List RankingRecord :=
  keywords.filterMap (fun kw => fetch_serp_data kw api_key target_domain (respond kw) now)

/-- Column names of `pd.DataFrame(results)` for a non-empty list of records:
the dict keys of `fetch_serp_data`'s return value, in insertion order. -/
def recordKeys : List String := ["keyword", "rank", "url", "search_volume", "timestamp"]

/-- A cell needs `csv.QUOTE_MINIMAL` quoting when it contains the delimiter,
the quote character or a line break. -/
def needsQuoting (s : String) : Bool :=
  s.toList.any (fun c => c == ',' || c == '"' || c == '\n' || c == '\r')

/-- QUOTE_MINIMAL quoting as the csv writer applies it: wrap the cell in
double quotes, doubling embedded quotes, exactly when it contains a
metacharacter; leave it untouched otherwise. -/
def quoteCell (s : String) : String :=
  if needsQuoting s then
    "\"" ++ String.mk (s.toList.foldr
      (fun c acc => if c == '"' then '"' :: '"' :: acc else c :: acc) []) ++ "\""
  else s

/-- The dtype pandas infers for the `rank` / `search_volume` column of
`pd.DataFrame(results)`: int64 when every row has a value, float64 when values
and `None` are mixed (the ints are promoted to floats and `None` becomes
`NaN`), object when every row is `None`. -/
inductive NumColKind where
  | intCol
  | floatCol
  | objectCol
deriving DecidableEq

/-- Infer the numeric column's dtype from its optional values. -/
def numColKind (vs : List (Option Nat)) : NumColKind :=
  if vs.all (fun v => v.isSome) then NumColKind.intCol
  else if vs.any (fun v => v.isSome) then NumColKind.floatCol
  else NumColKind.objectCol

/-- The cell `to_csv` writes for one entry of a numeric column: `str(n)` in an
int64 (or object) column, `str(float(n))` in a float64 column, rendered `n.0`
(exact for values below 2^53, the regime of ranks and realistic result counts;
beyond it Python float rounding applies, and `repr` switches to scientific
notation only at 1e16 > 2^53), and the default `na_rep` empty string for
`None`/`NaN`. -/
def numCell (k : NumColKind) : Option Nat → String
  | none => ""
  | some n =>
    match k with
    | NumColKind.floatCol => toString n ++ ".0"
    | _ => toString n

/-- The cell pandas writes for column `c` of record `r`, given the inferred
dtypes of the two numeric columns: string-typed cells are quoted per
QUOTE_MINIMAL, numeric cells contain only digits and a dot and are never
quoted, and `None`/`NaN` renders as the empty string. -/
def recordCell (rankKind volKind : NumColKind) (r : RankingRecord) : String → String
  | "keyword" => quoteCell r.keyword
  | "rank" => numCell rankKind r.rank
  | "url" =>
    match r.url with
    | none => ""
    | some u => quoteCell u
  | "search_volume" => numCell volKind r.search_volume
  | "timestamp" => quoteCell r.timestamp
  | _ => ""

/-- Model of `save_to_csv`: `pd.DataFrame(results).to_csv(output_path, index=False)`.
For a non-empty list of uniform dicts the DataFrame columns are the dict keys
in insertion order and each numeric column's dtype is inferred from its values
(see `numColKind`); for the empty list `pd.DataFrame([])` has no columns at
all, so `to_csv` emits an empty header line.  Each line ends in a newline;
missing values render as empty cells (`na_rep` default). -/
def save_to_csv (results : List RankingRecord) : String :=
  let cols : List String := if results.isEmpty then [] else recordKeys
  let rankKind := numColKind (results.map RankingRecord.rank)
  let volKind := numColKind (results.map RankingRecord.search_volume)
  String.intercalate "," cols ++ "\n"
    ++ String.join (results.map (fun r =>
        String.intercalate "," (cols.map (recordCell rankKind volKind r)) ++ "\n"))

/-- Resolved settings: the three recognised keys, each possibly absent, for
either the process environment or the parsed config file. -/
structure Env where
  serpapi_key : Option String
  target_domain : Option String
  google_sheets_credentials : Option String
deriving DecidableEq

/-- The merge `os.getenv(KEY, config.get(KEY))`: the environment value wins
whenever the variable is set, even when it is set to the empty string. -/
def getenvOr (envVal configVal : Option String) : Option String :=
  match envVal with
  | some v => some v
  | none => configVal

/-- Python truthiness of an optional string: `None` and `''` are falsy. -/
def truthy : Option String → Bool
  | none => false
  | some s => !(s == "")

/-- Model of `os.path.dirname` (posixpath): everything before the final `/`,
with trailing slashes stripped unless the result would be empty while the raw
head is all slashes; the empty string when the path has no `/` at all. -/
def dirname (p : String) : String :=
  let cs := p.toList
  if cs.contains '/' then
    let head := (cs.reverse.dropWhile (fun c => c ≠ '/')).reverse
    let stripped := (head.reverse.dropWhile (fun c => c = '/')).reverse
    if stripped.isEmpty then String.mk head else String.mk stripped
  else ""

/-- A UTC calendar date as `datetime.utcnow()` exposes it. -/
structure UTCDate where
  year : Nat
  month : Nat
  day : Nat
deriving DecidableEq

/-- Zero-padded two-digit decimal rendering (strftime `%m`, `%d`). -/
def pad2 (n : Nat) : String :=
  if n < 10 then "0" ++ toString n else toString n

/-- Zero-padded four-digit decimal rendering (strftime `%Y`). -/
def pad4 (n : Nat) : String :=
  if n < 10 then "000" ++ toString n
  else if n < 100 then "00" ++ toString n
  else if n < 1000 then "0" ++ toString n
  else toString n

/-- `datetime.utcnow().strftime('%Y-%m-%d')`. -/
def formatDate (d : UTCDate) : String :=
  pad4 d.year ++ "-" ++ pad2 d.month ++ "-" ++ pad2 d.day

/-- The default output path `f'results/keyword_rankings_{today}.csv'`. -/
def defaultOutputPath (today : String) : String :=
  "results/keyword_rankings_" ++ today ++ ".csv"

/-- The message `main` prints to stderr before `sys.exit(1)`. -/
def configErrorMsg : String :=
  "SERPAPI_KEY and TARGET_DOMAIN must be set in environment or config."

/-- The uncaught exception raised by `os.makedirs('', exist_ok=True)`:
`os.mkdir('')` fails with errno 2 and `''` is not a directory, so `exist_ok`
does not suppress it and the interpreter aborts with a traceback. -/
def makedirsEmptyMsg : String :=
  "FileNotFoundError: [Errno 2] No such file or directory"

/-- Diagnostic lines `fetch_serp_data` prints to stderr during the loop, one
per keyword whose response status is not 200. -/
def fetchErrors (keywords : List String) (respond : String → ApiResponse) : List String :=
  keywords.filterMap (fun kw =>
    if (respond kw).status_code ≠ 200 then
      some ("Error fetching SERP for " ++ kw ++ ": " ++ toString (respond kw).status_code)
    else none)

/-- How a run of `main` ends: `sys.exit(1)` on missing mandatory config, an
uncaught exception, or normal completion with the CSV written at `path`. -/
inductive Outcome where
  | exitConfig (msg : String)
  | crash (msg : String)
  | done (path : String) (csv : String) (records : List RankingRecord)
deriving DecidableEq

/-- Process exit status for each outcome (a Python traceback exits with 1). -/
def exitCodeOf : Outcome → Nat
  | Outcome.exitConfig _ => 1
  | Outcome.crash _ => 1
  | Outcome.done _ _ _ => 0

/-- Observable effects of one run of `main`: how it ended, how many network
requests were issued, the `output_path` value computed at line 94 (absent when
the run exited before reaching it), and the stderr lines. -/
structure MainResult where
  outcome : Outcome
  networkCalls : Nat
  outputPath : Option String
  stderrMsgs : List String
deriving DecidableEq

/-- The body of `main` after argument parsing, with the environment, parsed
config, loaded keyword list, per-keyword HTTP responses, the `--output`
argument and the clock passed explicitly.  Mirrors lines 77 to 97 of the
script: merge config with environment, fail fast when the merged API key or
target domain is falsy, run the fetch loop, compute the output path
(`args.output or f'results/keyword_rankings_{today}.csv'`, so a `None` or
empty `--output` falls back to the default), call
`os.makedirs(os.path.dirname(output_path), exist_ok=True)` (which raises when
the dirname is empty) and write the CSV. -/
def runMain (env config : Env) (keywords : List String) (respond : String → ApiResponse)
    (argsOutput : Option String) (today : UTCDate) (now : String) : MainResult :=
  let api_key := getenvOr env.serpapi_key config.serpapi_key
  let target_domain := getenvOr env.target_domain config.target_domain
  if !(truthy api_key) || !(truthy target_domain) then
    { outcome := Outcome.exitConfig configErrorMsg
      networkCalls := 0
      outputPath := none
      stderrMsgs := [configErrorMsg] }
  else
    let results := collectRecords (api_key.getD "") (target_domain.getD "") now respond keywords
    let output_path :=
      if truthy argsOutput then argsOutput.getD ""
      else defaultOutputPath (formatDate today)
    { outcome :=
        if dirname output_path = "" then Outcome.crash makedirsEmptyMsg
        else Outcome.done output_path (save_to_csv results) results
      networkCalls := keywords.length
      outputPath := some output_path
      stderrMsgs := fetchErrors keywords respond }

/-! ### Helper lemmas -/

/-- A non-empty string has a non-empty character list. -/
theorem toList_ne_nil_of_ne_empty (s : String) (h : s ≠ "") : s.toList ≠ [] := by
  intro hl
  apply h
  cases s with
  | mk d =>
    have hd : d = [] := hl
    rw [hd]

/-- String append concatenates the character lists. -/
theorem toList_append_eq (s t : String) : (s ++ t).toList = s.toList ++ t.toList := by
  simp [String.toList, String.data_append]

/-- A non-empty needle is never contained in the empty string. -/
theorem strContainsStr_empty (td : String) (h : td ≠ "") : strContainsStr "" td = false := by
  unfold strContainsStr
  apply decide_eq_false
  intro hinf
  obtain ⟨s, t, hst⟩ := hinf
  have hnil : s ++ td.toList = [] ∧ t = [] := List.append_eq_nil.mp hst
  have hnil2 : td.toList = [] := (List.append_eq_nil.mp hnil.1).2
  exact toList_ne_nil_of_ne_empty td h hnil2

/-- A string occurring between two others is contained in the concatenation. -/
theorem strContainsStr_append_middle (a s b : String) :
    strContainsStr (a ++ s ++ b) s = true := by
  unfold strContainsStr
  apply decide_eq_true
  rw [toList_append_eq, toList_append_eq]
  exact List.infix_append a.toList s.toList b.toList

/-- When entry `i` (0-based) matches and no earlier entry does, the scan loop
stops there: it returns rank `start + i` and that entry's link. -/
theorem scanResults_of_first (td : String) (l : List OrganicResult) :
    ∀ (start i : Nat), i < l.length →
      strContainsStr ((l.getD i ⟨none⟩).link.getD "") td = true →
      (∀ j, j < i → strContainsStr ((l.getD j ⟨none⟩).link.getD "") td = false) →
      scanResults td l start = (some (start + i), (l.getD i ⟨none⟩).link) := by
  induction l with
  | nil => intro start i hi _ _; simp at hi
  | cons r rs ih =>
    intro start i hi hm hf
    cases i with
    | zero =>
      simp only [List.getD_cons_zero] at hm ⊢
      simp [scanResults, hm]
    | succ i =>
      have h0 : strContainsStr (r.link.getD "") td = false := by
        simpa using hf 0 (Nat.succ_pos i)
      have hrec := ih (start + 1) i (by simpa using hi)
        (by simpa using hm)
        (fun j hj => by simpa using hf (j + 1) (Nat.succ_lt_succ hj))
      simp only [List.getD_cons_succ]
      rw [show start + (i + 1) = start + 1 + i by omega]
      simpa [scanResults, h0] using hrec

/-- When no entry matches, the scan loop leaves both variables at `None`. -/
theorem scanResults_of_no_match (td : String) (l : List OrganicResult)
    (h : ∀ r ∈ l, strContainsStr (r.link.getD "") td = false) :
    ∀ start, scanResults td l start = (none, none) := by
  induction l with
  | nil => intro start; simp [scanResults]
  | cons r rs ih =>
    intro start
    have h0 := h r (List.mem_cons_self r rs)
    have hrec := ih (fun x hx => h x (List.mem_cons_of_mem r hx)) (start + 1)
    simpa [scanResults, h0] using hrec

/-- With a non-empty target domain, the scan loop sets `rank` exactly when it
sets `matched_url`: a match against the defaulted link `''` is impossible, so
a matching entry always carries a present link. -/
theorem scanResults_rank_iff_url (td : String) (h : td ≠ "") (l : List OrganicResult) :
    ∀ start, ((scanResults td l start).1).isSome = ((scanResults td l start).2).isSome := by
  induction l with
  | nil => intro start; simp [scanResults]
  | cons r rs ih =>
    intro start
    cases hc : strContainsStr (r.link.getD "") td with
    | false =>
      have hrec := ih (start + 1)
      simpa [scanResults, hc] using hrec
    | true =>
      cases hl : r.link with
      | none =>
        rw [hl] at hc
        simp only [Option.getD_none] at hc
        rw [strContainsStr_empty td h] at hc
        cases hc
      | some u =>
        rw [hl] at hc
        simp only [Option.getD_some] at hc
        simp [scanResults, hc, hl]

/-- On a 200 response, `fetch_serp_data` returns the record built from the
scan of the organic results. -/
theorem fetch_serp_data_of_ok (kw apik td now : String) (resp : ApiResponse)
    (hs : resp.status_code = 200) :
    fetch_serp_data kw apik td resp now
      = some { keyword := kw
               rank := (scanResults td resp.organic_results 1).1
               url := (scanResults td resp.organic_results 1).2
               search_volume := searchVolumeOf resp
               timestamp := now } := by
  simp [fetch_serp_data, hs]

/-- On a non-200 response, `fetch_serp_data` returns `None`. -/
theorem fetch_serp_data_of_err (kw apik td now : String) (resp : ApiResponse)
    (hs : resp.status_code ≠ 200) :
    fetch_serp_data kw apik td resp now = none := by
  simp [fetch_serp_data, hs]

/-- Any record `fetch_serp_data` returns carries the queried keyword. -/
theorem fetch_serp_data_keyword (kw apik td now : String) (resp : ApiResponse)
    (rec : RankingRecord) (h : fetch_serp_data kw apik td resp now = some rec) :
    rec.keyword = kw := by
  by_cases hs : resp.status_code = 200
  · rw [fetch_serp_data_of_ok kw apik td now resp hs] at h
    have := Option.some.inj h
    rw [← this]
  · rw [fetch_serp_data_of_err kw apik td now resp hs] at h
    cases h

/-- `fetch_serp_data` succeeds exactly on status 200. -/
theorem fetch_serp_data_isSome (kw apik td now : String) (resp : ApiResponse) :
    (fetch_serp_data kw apik td resp now).isSome = (resp.status_code == 200) := by
  by_cases hs : resp.status_code = 200
  · rw [fetch_serp_data_of_ok kw apik td now resp hs]
    simp [hs]
  · rw [fetch_serp_data_of_err kw apik td now resp hs]
    simp [hs]

/-- The fetch loop keeps the successful keywords, in input order. -/
theorem collectRecords_keywords (apik td now : String) (respond : String → ApiResponse)
    (ks : List String) :
    (collectRecords apik td now respond ks).map RankingRecord.keyword
      = ks.filter (fun kw => (fetch_serp_data kw apik td (respond kw) now).isSome) := by
  induction ks with
  | nil => rfl
  | cons k ks ih =>
    cases hf : fetch_serp_data k apik td (respond k) now with
    | none =>
      simpa [collectRecords, List.filterMap_cons, List.filter_cons, hf] using ih
    | some rec =>
      have hk := fetch_serp_data_keyword k apik td now (respond k) rec hf
      simpa [collectRecords, List.filterMap_cons, List.filter_cons, hf, hk] using ih

/-- When every response in the batch has status 200, no keyword is dropped. -/
theorem collectRecords_length_of_all_ok (apik td now : String) (respond : String → ApiResponse)
    (ks : List String) (h : ∀ kw ∈ ks, (respond kw).status_code = 200) :
    (collectRecords apik td now respond ks).length = ks.length := by
  induction ks with
  | nil => rfl
  | cons k ks ih =>
    have hk := h k (List.mem_cons_self k ks)
    have hrec := ih (fun x hx => h x (List.mem_cons_of_mem k hx))
    simpa [collectRecords, List.filterMap_cons,
      fetch_serp_data_of_ok k apik td now (respond k) hk] using hrec

/-- When every response in the batch has a non-200 status, no record is made. -/
theorem collectRecords_of_all_err (apik td now : String) (respond : String → ApiResponse)
    (ks : List String) (h : ∀ kw ∈ ks, (respond kw).status_code ≠ 200) :
    collectRecords apik td now respond ks = [] := by
  induction ks with
  | nil => rfl
  | cons k ks ih =>
    have hk := h k (List.mem_cons_self k ks)
    have hrec := ih (fun x hx => h x (List.mem_cons_of_mem k hx))
    simpa [collectRecords, List.filterMap_cons,
      fetch_serp_data_of_err k apik td now (respond k) hk] using hrec

/-! ### Claim theorems -/

/-- C1: on a 200 response, if entry `i` (0-based) of the organic-results list
is the first whose link contains the target domain substring, the returned
record has `rank = i + 1` (the 1-based position) and `url` equal to that
entry's link; with `i = 0` this gives rank 1 and the first link. -/
theorem C1_rank_of_first_match (kw apik td now : String) (resp : ApiResponse)
    (hstatus : resp.status_code = 200) (i : Nat) (hi : i < resp.organic_results.length)
    (hmatch : strContainsStr ((resp.organic_results.getD i ⟨none⟩).link.getD "") td = true)
    (hfirst : ∀ j, j < i →
      strContainsStr ((resp.organic_results.getD j ⟨none⟩).link.getD "") td = false) :
    ∃ rec, fetch_serp_data kw apik td resp now = some rec
      ∧ rec.rank = some (i + 1)
      ∧ rec.url = (resp.organic_results.getD i ⟨none⟩).link := by
  have hscan := scanResults_of_first td resp.organic_results 1 i hi hmatch hfirst
  refine ⟨_, fetch_serp_data_of_ok kw apik td now resp hstatus, ?_, ?_⟩
  · rw [hscan]
    simp [Nat.add_comm]
  · rw [hscan]

/-- Witness for C1: a response whose second organic result is the first one
linking to the target domain yields rank 2 and that link. -/
theorem C1_witness :
    ∃ rec, fetch_serp_data "shoes" "k" "example.com"
        (ApiResponse.mk 200
          [OrganicResult.mk (some "https://other.org/a"),
           OrganicResult.mk (some "https://example.com/x")]
          none) "t" = some rec
      ∧ rec.rank = some (1 + 1)
      ∧ rec.url = (([OrganicResult.mk (some "https://other.org/a"),
           OrganicResult.mk (some "https://example.com/x")]).getD 1 ⟨none⟩).link := by
  refine C1_rank_of_first_match "shoes" "k" "example.com" "t"
    (ApiResponse.mk 200
      [OrganicResult.mk (some "https://other.org/a"),
       OrganicResult.mk (some "https://example.com/x")]
      none) rfl 1 (by decide) (by decide) ?_
  intro j hj
  have hj0 : j = 0 := by omega
  rw [hj0]
  decide

/-- C2: with a non-empty target domain, every record `fetch_serp_data` returns
has `rank` present exactly when `url` is present. -/
theorem C2_rank_iff_url (kw apik td now : String) (resp : ApiResponse) (hne : td ≠ "")
    (rec : RankingRecord) (h : fetch_serp_data kw apik td resp now = some rec) :
    rec.rank.isSome = rec.url.isSome := by
  by_cases hs : resp.status_code = 200
  · rw [fetch_serp_data_of_ok kw apik td now resp hs] at h
    have heq := Option.some.inj h
    rw [← heq]
    exact scanResults_rank_iff_url td hne resp.organic_results 1
  · rw [fetch_serp_data_of_err kw apik td now resp hs] at h
    cases h

/-- Witness for C2: a concrete 200 response with a matching first link gives a
record whose rank and url are both present. -/
theorem C2_witness :
    (RankingRecord.mk "shoes" (some 1) (some "https://example.com/x") none "t").rank.isSome
      = (RankingRecord.mk "shoes" (some 1) (some "https://example.com/x") none "t").url.isSome := by
  refine C2_rank_iff_url "shoes" "k" "example.com" "t"
    (ApiResponse.mk 200 [OrganicResult.mk (some "https://example.com/x")] none)
    (by decide) _ ?_
  decide

/-- C3: for a non-empty keyword list, at most one record per keyword is
produced, with exactly one per keyword when every response has status 200;
the produced records carry the successfully fetched keywords in input order;
and in a three-keyword batch whose middle response has a non-200 status,
exactly the first and third keywords' records are produced, in order. -/
theorem C3_record_count_and_order (apik td now : String) (respond : String → ApiResponse)
    (ks : List String) (hne : ks ≠ []) :
    (collectRecords apik td now respond ks).length ≤ ks.length
    ∧ ((∀ kw ∈ ks, (respond kw).status_code = 200) →
        (collectRecords apik td now respond ks).length = ks.length)
    ∧ (collectRecords apik td now respond ks).map RankingRecord.keyword
        = ks.filter (fun kw => (fetch_serp_data kw apik td (respond kw) now).isSome)
    ∧ (∀ k1 k2 k3, ks = [k1, k2, k3] →
        (respond k1).status_code = 200 → (respond k2).status_code ≠ 200 →
        (respond k3).status_code = 200 →
        (collectRecords apik td now respond ks).map RankingRecord.keyword = [k1, k3]) := by
  refine ⟨List.length_filterMap_le _ _,
    collectRecords_length_of_all_ok apik td now respond ks,
    collectRecords_keywords apik td now respond ks, ?_⟩
  intro k1 k2 k3 hks h1 h2 h3
  subst hks
  rw [collectRecords_keywords apik td now respond [k1, k2, k3]]
  have e1 : (fetch_serp_data k1 apik td (respond k1) now).isSome = true := by
    rw [fetch_serp_data_isSome]
    simp [h1]
  have e2 : (fetch_serp_data k2 apik td (respond k2) now).isSome = false := by
    rw [fetch_serp_data_isSome]
    simp [h2]
  have e3 : (fetch_serp_data k3 apik td (respond k3) now).isSome = true := by
    rw [fetch_serp_data_isSome]
    simp [h3]
  simp [List.filter_cons, e1, e2, e3]

/-- Per-keyword responses used by the C3 witness: status 404 for keyword `b`,
status 200 with one organic result otherwise. -/
def wRespond3 : String → ApiResponse := fun kw =>
  if kw = "b" then ApiResponse.mk 404 [] none
  else ApiResponse.mk 200 [OrganicResult.mk (some "https://example.com/a")] none

/-- Witness for C3: with keywords `a`, `b`, `c` and a 404 for `b`, exactly the
records for `a` and `c` are produced, in order. -/
theorem C3_witness :
    (collectRecords "k" "example.com" "t" wRespond3 ["a", "b", "c"]).map RankingRecord.keyword
        = ["a", "c"]
    ∧ (collectRecords "k" "example.com" "t" wRespond3 ["a", "b", "c"]).length ≤ 3 := by
  have h := C3_record_count_and_order "k" "example.com" "t" wRespond3 ["a", "b", "c"] (by decide)
  refine ⟨h.2.2.2 "a" "b" "c" rfl ?_ ?_ ?_, ?_⟩
  · decide
  · decide
  · decide
  · exact h.1

/-- C4: when the merged API key or the merged target domain is falsy, `main`
exits with status 1, prints the configuration message to stderr, and issues no
network request. -/
theorem C4_config_failfast (env config : Env) (ks : List String)
    (respond : String → ApiResponse) (out : Option String) (d : UTCDate) (now : String)
    (h : truthy (getenvOr env.serpapi_key config.serpapi_key) = false
       ∨ truthy (getenvOr env.target_domain config.target_domain) = false) :
    (runMain env config ks respond out d now).outcome = Outcome.exitConfig configErrorMsg
    ∧ exitCodeOf (runMain env config ks respond out d now).outcome = 1
    ∧ (runMain env config ks respond out d now).networkCalls = 0
    ∧ (runMain env config ks respond out d now).stderrMsgs = [configErrorMsg] := by
  rcases h with h | h
  · refine ⟨?_, ?_, ?_, ?_⟩ <;> simp [runMain, h, exitCodeOf]
  · refine ⟨?_, ?_, ?_, ?_⟩ <;> simp [runMain, h, exitCodeOf]

/-- Witness for C4: with both settings absent from config and environment, the
run reports exit status 1 and zero network calls. -/
theorem C4_witness :
    (runMain (Env.mk none none none) (Env.mk none none none) ["a"]
        (fun _ => ApiResponse.mk 200 [] none) none (UTCDate.mk 2026 10 12) "t").networkCalls = 0
    ∧ exitCodeOf (runMain (Env.mk none none none) (Env.mk none none none) ["a"]
        (fun _ => ApiResponse.mk 200 [] none) none (UTCDate.mk 2026 10 12) "t").outcome = 1 := by
  have h := C4_config_failfast (Env.mk none none none) (Env.mk none none none) ["a"]
    (fun _ => ApiResponse.mk 200 [] none) none (UTCDate.mk 2026 10 12) "t" (Or.inl rfl)
  exact ⟨h.2.2.1, h.2.1⟩

/-- C10: an environment variable set to the empty string wins the merge against
a non-empty config value, and the run then fails the mandatory-setting check
and exits with status 1. -/
theorem C10_empty_env_overrides (env config : Env) (ks : List String)
    (respond : String → ApiResponse) (out : Option String) (d : UTCDate) (now : String)
    (hcfgk : truthy config.serpapi_key = true) (hcfgd : truthy config.target_domain = true)
    (h : env.serpapi_key = some "" ∨ env.target_domain = some "") :
    (env.serpapi_key = some "" → getenvOr env.serpapi_key config.serpapi_key = some "")
    ∧ (env.target_domain = some "" → getenvOr env.target_domain config.target_domain = some "")
    ∧ (runMain env config ks respond out d now).outcome = Outcome.exitConfig configErrorMsg
    ∧ exitCodeOf (runMain env config ks respond out d now).outcome = 1 := by
  refine ⟨fun hk => by rw [hk]; rfl, fun hd => by rw [hd]; rfl, ?_, ?_⟩
  · rcases h with h | h
    · have hm : truthy (getenvOr env.serpapi_key config.serpapi_key) = false := by
        rw [h]; rfl
      simp [runMain, hm]
    · have hm : truthy (getenvOr env.target_domain config.target_domain) = false := by
        rw [h]; rfl
      simp [runMain, hm]
  · rcases h with h | h
    · have hm : truthy (getenvOr env.serpapi_key config.serpapi_key) = false := by
        rw [h]; rfl
      simp [runMain, hm, exitCodeOf]
    · have hm : truthy (getenvOr env.target_domain config.target_domain) = false := by
        rw [h]; rfl
      simp [runMain, hm, exitCodeOf]

/-- Witness for C10: `SERPAPI_KEY=''` in the environment overrides a non-empty
config value and the run exits with status 1. -/
theorem C10_witness :
    getenvOr (some "") (some "realkey") = some ""
    ∧ exitCodeOf (runMain (Env.mk (some "") none none)
        (Env.mk (some "realkey") (some "example.com") none) ["a"]
        (fun _ => ApiResponse.mk 200 [] none) none (UTCDate.mk 2026 10 12) "t").outcome = 1 := by
  have h := C10_empty_env_overrides (Env.mk (some "") none none)
    (Env.mk (some "realkey") (some "example.com") none) ["a"]
    (fun _ => ApiResponse.mk 200 [] none) none (UTCDate.mk 2026 10 12) "t"
    (by decide) (by decide) (Or.inl rfl)
  exact ⟨h.1 rfl, h.2.2.2⟩

/-- Quoting is the identity on cells without CSV metacharacters. -/
theorem quoteCell_of_plain (s : String) (h : needsQuoting s = false) :
    quoteCell s = s := by
  unfold quoteCell
  rw [h]
  rfl

/-- For a record whose string fields need no quoting, the pandas cells in
column order are the five fields themselves, with absent fields as empty cells
and the numeric fields rendered per their column's dtype. -/
theorem recordRow_of_plain (rk vk : NumColKind) (r : RankingRecord)
    (hk : needsQuoting r.keyword = false) (hu : needsQuoting (r.url.getD "") = false)
    (ht : needsQuoting r.timestamp = false) :
    recordKeys.map (recordCell rk vk r)
      = [r.keyword, numCell rk r.rank, r.url.getD "",
         numCell vk r.search_volume, r.timestamp] := by
  show [quoteCell r.keyword, numCell rk r.rank,
        (match r.url with
         | none => ""
         | some u => quoteCell u),
        numCell vk r.search_volume, quoteCell r.timestamp] = _
  rw [quoteCell_of_plain r.keyword hk, quoteCell_of_plain r.timestamp ht]
  cases hu2 : r.url with
  | none => rfl
  | some u =>
    rw [hu2] at hu
    simp only [Option.getD_some] at hu ⊢
    rw [quoteCell_of_plain u hu]

/-- Counterexample for C5: for the empty record sequence the written CSV is a
single blank line, with no `keyword,rank,url,search_volume,timestamp` header
(`pd.DataFrame([])` has no columns). -/
theorem C5_counterexample :
    save_to_csv [] = "\n"
    ∧ ("keyword,rank,url,search_volume,timestamp".toList).isPrefixOf
        ((save_to_csv []).toList) = false := by
  constructor
  · rfl
  · decide

/-- C5 (amended): for every non-empty record sequence whose string fields are
free of CSV metacharacters, the CSV is the fixed header line followed by one
line per record in order, columns in the order keyword, rank, url,
search_volume, timestamp, absent fields rendered as empty cells, and each
present numeric field rendered per its column's inferred dtype (plain integer
when the column is complete, float notation when the column also has absent
entries); for the empty sequence the CSV is a single blank line without the
header. -/
theorem C5_csv_shape (rs : List RankingRecord) (h : rs ≠ [])
    (hclean : ∀ r ∈ rs, needsQuoting r.keyword = false
      ∧ needsQuoting (r.url.getD "") = false ∧ needsQuoting r.timestamp = false) :
    save_to_csv rs
      = "keyword,rank,url,search_volume,timestamp\n"
        ++ String.join (rs.map (fun r =>
            String.intercalate ","
              [r.keyword,
               numCell (numColKind (rs.map RankingRecord.rank)) r.rank,
               r.url.getD "",
               numCell (numColKind (rs.map RankingRecord.search_volume)) r.search_volume,
               r.timestamp] ++ "\n"))
    ∧ (∀ k : NumColKind, numCell k none = "")
    ∧ save_to_csv [] = "\n" := by
  have hE : rs.isEmpty = false := by
    cases rs with
    | nil => exact absurd rfl h
    | cons a as => rfl
  refine ⟨?_, fun k => rfl, rfl⟩
  have hmap : rs.map (fun r =>
        String.intercalate ","
          (recordKeys.map (recordCell (numColKind (rs.map RankingRecord.rank))
            (numColKind (rs.map RankingRecord.search_volume)) r)) ++ "\n")
      = rs.map (fun r =>
        String.intercalate ","
          [r.keyword,
           numCell (numColKind (rs.map RankingRecord.rank)) r.rank,
           r.url.getD "",
           numCell (numColKind (rs.map RankingRecord.search_volume)) r.search_volume,
           r.timestamp] ++ "\n") := by
    apply List.map_congr_left
    intro r hr
    rw [recordRow_of_plain _ _ r (hclean r hr).1 (hclean r hr).2.1 (hclean r hr).2.2]
  show (let cols : List String := if rs.isEmpty then [] else recordKeys
    let rankKind := numColKind (rs.map RankingRecord.rank)
    let volKind := numColKind (rs.map RankingRecord.search_volume)
    String.intercalate "," cols ++ "\n"
      ++ String.join (rs.map (fun r =>
          String.intercalate "," (cols.map (recordCell rankKind volKind r)) ++ "\n"))) = _
  rw [hE]
  show String.intercalate "," recordKeys ++ "\n"
      ++ String.join (rs.map (fun r =>
          String.intercalate ","
            (recordKeys.map (recordCell (numColKind (rs.map RankingRecord.rank))
              (numColKind (rs.map RankingRecord.search_volume)) r)) ++ "\n")) = _
  rw [hmap]
  congr 1

/-- C6: on a 200 response none of whose organic links contains the target
domain, a record is still produced, with absent rank and url but with the
keyword and the timestamp filled in. -/
theorem C6_no_match_still_record (kw apik td now : String) (resp : ApiResponse)
    (hstatus : resp.status_code = 200)
    (hnone : ∀ r ∈ resp.organic_results, strContainsStr (r.link.getD "") td = false) :
    ∃ rec, fetch_serp_data kw apik td resp now = some rec
      ∧ rec.rank = none ∧ rec.url = none ∧ rec.keyword = kw ∧ rec.timestamp = now := by
  have hscan := scanResults_of_no_match td resp.organic_results hnone 1
  refine ⟨_, fetch_serp_data_of_ok kw apik td now resp hstatus, ?_, ?_, rfl, rfl⟩
  · rw [hscan]
  · rw [hscan]

/-- Record list used by the C5 witness: both numeric columns mix present and
absent values, so both are promoted to float64. -/
def wRecs5 : List RankingRecord :=
  [RankingRecord.mk "shoes" (some 1) (some "https://example.com/x") none "t1",
   RankingRecord.mk "bags" none none (some 120) "t2"]

/-- Witness for C5: two records with mixed present/absent numeric columns
render as the header plus one row each, with absent fields empty and present
numerics in float notation. -/
theorem C5_witness :
    save_to_csv wRecs5
      = "keyword,rank,url,search_volume,timestamp\n"
        ++ String.join (wRecs5.map (fun r =>
            String.intercalate ","
              [r.keyword,
               numCell (numColKind (wRecs5.map RankingRecord.rank)) r.rank,
               r.url.getD "",
               numCell (numColKind (wRecs5.map RankingRecord.search_volume)) r.search_volume,
               r.timestamp] ++ "\n"))
    ∧ (∀ k : NumColKind, numCell k none = "")
    ∧ save_to_csv [] = "\n" :=
  C5_csv_shape wRecs5 (by decide) (by decide)

/-- Witness for C6: a 200 response with one non-matching link still yields a
record, with rank and url absent. -/
theorem C6_witness :
    ∃ rec, fetch_serp_data "shoes" "k" "example.com"
        (ApiResponse.mk 200 [OrganicResult.mk (some "https://other.org/a")] none) "t" = some rec
      ∧ rec.rank = none ∧ rec.url = none ∧ rec.keyword = "shoes" ∧ rec.timestamp = "t" := by
  refine C6_no_match_still_record "shoes" "k" "example.com" "t"
    (ApiResponse.mk 200 [OrganicResult.mk (some "https://other.org/a")] none) rfl ?_
  intro r hr
  have hr1 : r = OrganicResult.mk (some "https://other.org/a") := by
    simpa using hr
  rw [hr1]
  decide

/-- C7 (code bug): with valid settings and a successful fetch, an output path
with no directory component makes `main` call `os.makedirs('', exist_ok=True)`
(`os.path.dirname('out.csv') == ''`), which raises `FileNotFoundError`, so no
CSV is written; the identical run with `results/out.csv` completes and writes
the CSV.  The spec's `creating parent directories as needed` is the evident
intent, and guarding the `os.makedirs` call on a non-empty dirname restores
it. -/
theorem C7_bare_filename_crashes :
    ((runMain (Env.mk (some "key123") (some "example.com") none) (Env.mk none none none)
        ["shoes"]
        (fun _ => ApiResponse.mk 200 [OrganicResult.mk (some "https://example.com/p")] none)
        (some "out.csv") (UTCDate.mk 2026 10 12) "t").outcome
      = Outcome.crash makedirsEmptyMsg)
    ∧ (∃ csv recs, (runMain (Env.mk (some "key123") (some "example.com") none)
        (Env.mk none none none) ["shoes"]
        (fun _ => ApiResponse.mk 200 [OrganicResult.mk (some "https://example.com/p")] none)
        (some "results/out.csv") (UTCDate.mk 2026 10 12) "t").outcome
      = Outcome.done "results/out.csv" csv recs) := by
  constructor
  · rfl
  · exact ⟨_, _, rfl⟩

/-- C8: whenever the mandatory settings resolve and `--output` is omitted, the
output path is `results/keyword_rankings_<YYYY-MM-DD>.csv` for the current UTC
date, and in particular contains the date rendered as `YYYY-MM-DD`. -/
theorem C8_default_path_embeds_date (env config : Env) (ks : List String)
    (respond : String → ApiResponse) (d : UTCDate) (now : String)
    (hkey : truthy (getenvOr env.serpapi_key config.serpapi_key) = true)
    (hdom : truthy (getenvOr env.target_domain config.target_domain) = true) :
    (runMain env config ks respond none d now).outputPath
        = some (defaultOutputPath (formatDate d))
    ∧ strContainsStr (defaultOutputPath (formatDate d)) (formatDate d) = true := by
  constructor
  · have hc : (!truthy (getenvOr env.serpapi_key config.serpapi_key)
        || !truthy (getenvOr env.target_domain config.target_domain)) = false := by
      rw [hkey, hdom]
      rfl
    simp only [runMain, hc, Bool.false_eq_true, if_false]
    rfl
  · unfold defaultOutputPath
    exact strContainsStr_append_middle "results/keyword_rankings_" (formatDate d) ".csv"

/-- Witness for C8: on 2026-10-12 the defaulted output path is
`results/keyword_rankings_2026-10-12.csv` and contains the date. -/
theorem C8_witness :
    (runMain (Env.mk (some "key") (some "example.com") none) (Env.mk none none none) []
        (fun _ => ApiResponse.mk 404 [] none) none (UTCDate.mk 2026 10 12) "t").outputPath
        = some (defaultOutputPath (formatDate (UTCDate.mk 2026 10 12)))
    ∧ strContainsStr (defaultOutputPath (formatDate (UTCDate.mk 2026 10 12)))
        (formatDate (UTCDate.mk 2026 10 12)) = true :=
  C8_default_path_embeds_date (Env.mk (some "key") (some "example.com") none)
    (Env.mk none none none) [] (fun _ => ApiResponse.mk 404 [] none)
    (UTCDate.mk 2026 10 12) "t" rfl rfl

/-- C9: when the mandatory settings resolve and the chosen output path has a
directory component, a run whose keyword list is empty, or all of whose
fetches fail, still completes normally: the CSV is written for zero records
and the exit status is 0. -/
theorem C9_empty_or_allfail_completes (env config : Env) (ks : List String)
    (respond : String → ApiResponse) (out : Option String) (d : UTCDate) (now : String)
    (hkey : truthy (getenvOr env.serpapi_key config.serpapi_key) = true)
    (hdom : truthy (getenvOr env.target_domain config.target_domain) = true)
    (hempty : ks = [] ∨ ∀ kw ∈ ks, (respond kw).status_code ≠ 200)
    (hdir : dirname (out.getD (defaultOutputPath (formatDate d))) ≠ "") :
    (runMain env config ks respond out d now).outcome
        = Outcome.done (out.getD (defaultOutputPath (formatDate d))) (save_to_csv []) []
    ∧ exitCodeOf (runMain env config ks respond out d now).outcome = 0 := by
  have hrec : collectRecords ((getenvOr env.serpapi_key config.serpapi_key).getD "")
      ((getenvOr env.target_domain config.target_domain).getD "") now respond ks = [] := by
    rcases hempty with h | h
    · rw [h]
      rfl
    · exact collectRecords_of_all_err _ _ now respond ks h
  have hpath : (if truthy out then out.getD "" else defaultOutputPath (formatDate d))
      = out.getD (defaultOutputPath (formatDate d)) := by
    cases out with
    | none => rfl
    | some s =>
      by_cases hs : s = ""
      · subst hs
        exact absurd rfl hdir
      · have hts : truthy (some s) = true := by
          simp [truthy, hs]
        rw [hts]
        rfl
  constructor
  · simp only [runMain, hkey, hdom, Bool.not_true, Bool.or_self, Bool.false_eq_true,
      if_false, hpath, hrec]
    simp [hdir]
  · simp only [runMain, hkey, hdom, Bool.not_true, Bool.or_self, Bool.false_eq_true,
      if_false, hpath, hrec]
    simp [hdir, exitCodeOf]

/-- Witness for C9: a run with an empty keyword list and an explicit
`results/r.csv` output completes with a zero-record CSV and exit status 0. -/
theorem C9_witness :
    (runMain (Env.mk (some "key") (some "example.com") none) (Env.mk none none none) []
        (fun _ => ApiResponse.mk 404 [] none) (some "results/r.csv")
        (UTCDate.mk 2026 10 12) "t").outcome
      = Outcome.done "results/r.csv" (save_to_csv []) []
    ∧ exitCodeOf (runMain (Env.mk (some "key") (some "example.com") none)
        (Env.mk none none none) [] (fun _ => ApiResponse.mk 404 [] none)
        (some "results/r.csv") (UTCDate.mk 2026 10 12) "t").outcome = 0 := by
  have h := C9_empty_or_allfail_completes (Env.mk (some "key") (some "example.com") none)
    (Env.mk none none none) [] (fun _ => ApiResponse.mk 404 [] none)
    (some "results/r.csv") (UTCDate.mk 2026 10 12) "t" rfl rfl (Or.inl rfl) (by decide)
  simpa using h
